import Mathlib

/-!
Shallow embedding of the EguiVideoPlayer playback backend.

Source files embedded:
  - src/gstreamer_internals/backend_v2.rs   (struct BackendV2 and its
    GstreamerBackendFramework implementation)
  - src/gstreamer_internals/backend_framework.rs  (trait default methods
    is_playing / is_paused)
  - src/gstreamer_internals/prober.rs       (struct Probe and the probe task)

Modelling conventions:
  - f64 values (timecodes in seconds, playback speed, volume, frametime) are
    modelled as rationals; gstreamer ClockTime is modelled as rational seconds
    (ClockTime.seconds_f64 / ClockTime.from_seconds_f64 become the identity).
  - The gstreamer pipeline, the volume element and the audio sink are external
    library handles; calls into them are recorded as an explicit list of
    PipelineAction values emitted by each operation.  External pipeline calls
    (set_state, seek, send_event, set_property) return success in gstreamer
    unless the pipeline is broken; their Result is modelled as always Ok, the
    claims under study only concern this repository's own state handling.
  - The crossbeam frame channel (bounded capacity 1) is modelled by the
    Option-typed content it holds at the moment update() performs its single
    try_recv call.
  - The spawned probe thread (std JoinHandle over anyhow Result of Probe) is
    modelled as a snapshot of the handle: whether is_finished() currently
    returns true, and the outcome join() would deliver (a panic of the task,
    or its returned Result).
  - anyhow errors are modelled as their message String.
  - A Rust panic is modelled as an explicit panic constructor in the result
    type of the operation that panics.
-/

namespace Gst

/-- Gstreamer playback states (gstreamer::State). -/
inductive State
  | VoidPending
  | Null
  | Ready
  | Paused
  | Playing
  deriving DecidableEq

end Gst

/-- Gstreamer ClockTime, modelled as rational seconds. -/
abbrev ClockTime := ℚ

/-- Gstreamer seek flags actually used by this code base: FLUSH, KEY_UNIT and
ACCURATE, modelled as a bitset with one field per flag. -/
structure SeekFlags where
  flush : Bool
  key_unit : Bool
  accurate : Bool
  deriving DecidableEq

/-- Bitwise union of two flag sets (the Rust | operator on SeekFlags). -/
def SeekFlags.or (a b : SeekFlags) : SeekFlags :=
  { flush := a.flush || b.flush
    key_unit := a.key_unit || b.key_unit
    accurate := a.accurate || b.accurate }

/-- SeekFlags::FLUSH. -/
def SeekFlags.FLUSH : SeekFlags := { flush := true, key_unit := false, accurate := false }

/-- SeekFlags::KEY_UNIT. -/
def SeekFlags.KEY_UNIT : SeekFlags := { flush := false, key_unit := true, accurate := false }

/-- SeekFlags::ACCURATE. -/
def SeekFlags.ACCURATE : SeekFlags := { flush := false, key_unit := false, accurate := true }

/-- Calls made into the external gstreamer pipeline handle (and the volume
element).  Each backend operation returns the list of such calls it issued,
in order. -/
inductive PipelineAction
  | setState (s : Gst.State)
  | seek (rate : ℚ) (flags : SeekFlags) (position : ClockTime)
  | stepEvent (frames : Nat)
  | setVolumeProperty (value : ℚ)
  deriving DecidableEq

/-- Gstreamer Fraction (used for the fps field of VideoInfo). -/
structure Fraction where
  numer : Int
  denom : Int
  deriving DecidableEq

/-- Helper fraction_to_f64 from src/lib.rs: numer as f64 / denom as f64,
with f64 modelled as rational. -/
def fraction_to_f64 (fraction : Fraction) : ℚ :=
  (fraction.numer : ℚ) / (fraction.denom : ℚ)

/-- Gstreamer VideoInfo.  An external library type; the backend only ever
reads its fps() fraction (in get_frametime), which is all that is modelled. -/
structure VideoInfo where
  fps : Fraction
  deriving DecidableEq

/-- FrameUpdate (src/gstreamer_internals/update.rs): a decoded video frame
plus its presentation timecode.  The pixel buffer is opaque to the backend
logic and is modelled by an identifier. -/
structure FrameUpdate where
  frame : Nat
  timecode : ClockTime
  deriving DecidableEq

/-- VideoStream entry of a Probe (src/gstreamer_internals/prober.rs). -/
structure VideoStream where
  name : Option String
  fps : Option ℚ
  bitrate : Option Nat
  max_bitrate : Option Nat
  resolution : Option (Nat × Nat)
  codec : Option String
  index : Option Nat
  deriving DecidableEq

/-- AudioStream entry of a Probe (src/gstreamer_internals/prober.rs). -/
structure AudioStream where
  name : Option String
  codec : Option String
  bitrate : Option Nat
  index : Option Nat
  deriving DecidableEq

/-- Probe (src/gstreamer_internals/prober.rs): snapshot of discovered media
metadata, immutable after creation. -/
structure Probe where
  uri : String
  captions : List (Option String × Nat)
  audio_streams : List (AudioStream × Nat)
  video_streams : List (VideoStream × Nat)
  deriving DecidableEq

deriving instance DecidableEq for Except

/-- What joining the probe thread would deliver: either the task panicked,
or it completed with its Result (discovery success or discovery error). -/
inductive TaskOutcome
  | panicked
  | completed (r : Except String Probe)
  deriving DecidableEq

/-- Snapshot of the std JoinHandle over the probe task: whether is_finished()
currently returns true, and the outcome join() would deliver. -/
structure JoinHandle where
  finished : Bool
  outcome : TaskOutcome
  deriving DecidableEq

/-- FrameQueueInfo (backend_v2.rs lines 615-619): the forced-frame-fetch
bookkeeping flags. -/
structure FrameQueueInfo where
  queued : Bool
  start_state : Gst.State
  in_progress : Bool
  deriving DecidableEq

/-- BackendV2 (backend_v2.rs lines 21-41).  The raw gstreamer handles
(pipeline, update_receiver, volume, audio_sink) are external resources whose
use is recorded through PipelineAction lists and the explicit channel
argument of update; every field of the struct that carries backend state is
modelled. -/
structure BackendV2 where
  probe : Except String Probe
  probe_future : Option JoinHandle
  latest_info : Option VideoInfo
  latest_timecode : ClockTime
  target_state : Gst.State
  frame_queue_info : FrameQueueInfo
  playback_speed : ℚ
  current_volume : ℚ
  current_audio_device : Option String
  deriving DecidableEq

/-- Content of the bounded(1) crossbeam frame channel at the moment update()
performs its try_recv. -/
abbrev Channel := Option (FrameUpdate × VideoInfo)

/-- crossbeam_channel::TryRecvError. -/
inductive TryRecvError
  | empty
  | disconnected
  deriving DecidableEq

/-- Receiver::try_recv on the modelled channel: the sender (the appsink
callback) lives as long as the pipeline, so an empty channel yields Empty. -/
def try_recv (chan : Channel) : Except TryRecvError (FrameUpdate × VideoInfo) :=
  match chan with
  | some x => Except.ok x
  | none => Except.error TryRecvError.empty

/-- Result of a backend operation that can panic but otherwise mutates the
backend and issues pipeline calls (seek_frames). -/
inductive SeekResult
  | ok (backend : BackendV2) (acts : List PipelineAction)
  | panic (msg : String)
  deriving DecidableEq

/-- Result of BackendV2::update: the returned Ok(FrameUpdate), the propagated
channel Err, or a Rust panic escaping the call.  The err and ok constructors
carry the backend state left behind by the call (self is mutated in place in
the Rust) and the pipeline calls issued. -/
inductive UpdateOutcome
  | ok (backend : BackendV2) (acts : List PipelineAction) (frame : FrameUpdate)
  | err (backend : BackendV2) (acts : List PipelineAction) (e : TryRecvError)
  | panic (msg : String)
  deriving DecidableEq

/-- True when the outcome is the propagated channel error. -/
def UpdateOutcome.isErr : UpdateOutcome → Bool
  | .err _ _ _ => true
  | _ => false

/-- True when the call panicked. -/
def UpdateOutcome.isPanic : UpdateOutcome → Bool
  | .panic _ => true
  | _ => false

/-- BackendV2::get_predicted_state (backend_v2.rs lines 417-419). -/
def get_predicted_state (b : BackendV2) : Gst.State :=
  b.target_state

/-- BackendV2::start (backend_v2.rs lines 276-280): set the pipeline to
Playing and record Playing as the target state. -/
def start (b : BackendV2) : BackendV2 × List PipelineAction :=
  ({ b with target_state := Gst.State.Playing }, [PipelineAction.setState Gst.State.Playing])

/-- BackendV2::stop (backend_v2.rs lines 282-286): set the pipeline to
Paused and record Paused as the target state. -/
def stop (b : BackendV2) : BackendV2 × List PipelineAction :=
  ({ b with target_state := Gst.State.Paused }, [PipelineAction.setState Gst.State.Paused])

/-- BackendV2::quit (backend_v2.rs lines 288-292). -/
def quit (b : BackendV2) : BackendV2 × List PipelineAction :=
  ({ b with target_state := Gst.State.Null }, [PipelineAction.setState Gst.State.Null])

/-- BackendV2::queue_frame_update (backend_v2.rs lines 294-296). -/
def queue_frame_update (b : BackendV2) : BackendV2 :=
  { b with frame_queue_info := { b.frame_queue_info with queued := true } }

/-- BackendV2::handle_update (backend_v2.rs lines 50-54): cache the frame's
VideoInfo and timecode, hand the frame back. -/
def handle_update (b : BackendV2) (inny : FrameUpdate × VideoInfo) : BackendV2 × FrameUpdate :=
  ({ b with latest_info := some inny.2, latest_timecode := inny.1.timecode }, inny.1)

/-- BackendV2::get_latest_vidio_info (backend_v2.rs lines 409-411). -/
def get_latest_vidio_info (b : BackendV2) : Option VideoInfo :=
  b.latest_info

/-- BackendV2::get_frametime (backend_v2.rs lines 385-394): 1/fps from the
latest cached video info, 1/30 when none is cached. -/
def get_frametime (b : BackendV2) : ℚ :=
  match get_latest_vidio_info b with
  | some info => 1 / fraction_to_f64 info.fps
  | none => 1 / 30

/-- BackendV2::get_probe (backend_v2.rs lines 396-407): Ok with the cached
probe, or bail with the cached error's message. -/
def get_probe (b : BackendV2) : Except String Probe :=
  match b.probe with
  | Except.ok probe => Except.ok probe
  | Except.error err => Except.error err

/-- BackendV2::current_playback_speed (backend_v2.rs lines 413-415). -/
def current_playback_speed (b : BackendV2) : ℚ :=
  b.playback_speed

/-- BackendV2::timecode (backend_v2.rs lines 421-423). -/
def timecode (b : BackendV2) : ClockTime :=
  b.latest_timecode

/-- Trait default GstreamerBackendFramework::is_playing
(backend_framework.rs lines 42-45), inherited unchanged by BackendV2.  The
Rust body is matches!(State::Playing, _st): the second macro argument is the
PATTERN, and the identifier _st is an irrefutable binder pattern (shadowing
the let-bound _st), so the match arm fires for every state.  The embedding
reproduces that pattern match literally. -/
def is_playing (b : BackendV2) : Bool :=
  let _st := get_predicted_state b
  match Gst.State.Playing with
  | _ => true

/-- Trait default GstreamerBackendFramework::is_paused
(backend_framework.rs lines 47-50); same irrefutable-pattern shape as
is_playing, with State::Paused as the matched value. -/
def is_paused (b : BackendV2) : Bool :=
  let _st := get_predicted_state b
  match Gst.State.Paused with
  | _ => true

/-- BackendV2::change_playback_speed (backend_v2.rs lines 298-310): read the
current timecode, store the new rate, and seek at the new rate to that
timecode with FLUSH. -/
def change_playback_speed (b : BackendV2) (speed : ℚ) : BackendV2 × List PipelineAction :=
  let cp := b.latest_timecode
  let b1 := { b with playback_speed := speed }
  (b1, [PipelineAction.seek speed SeekFlags.FLUSH cp])

/-- BackendV2::seek_time (backend_v2.rs lines 316-327): one pipeline seek at
the stored playback speed with the given flags and absolute position. -/
def seek_time (b : BackendV2) (seek_flags : SeekFlags) (seek_to : ClockTime) :
    BackendV2 × List PipelineAction :=
  (b, [PipelineAction.seek b.playback_speed seek_flags seek_to])

/-- BackendV2::seek_timeline (backend_v2.rs lines 329-343): suppressed while
a forced fetch is in progress; otherwise one seek, FLUSH when accurate,
FLUSH or-ed with KEY_UNIT when not. -/
def seek_timeline (b : BackendV2) (seek_to : ClockTime) (accurate : Bool) :
    BackendV2 × List PipelineAction :=
  if !b.frame_queue_info.in_progress then
    (b, [PipelineAction.seek b.playback_speed
          (if accurate then SeekFlags.FLUSH else SeekFlags.or SeekFlags.FLUSH SeekFlags.KEY_UNIT)
          seek_to])
  else
    (b, [])

/-- The value i32::MIN: the frames parameter of seek_frames is a Rust i32,
modelled as an integer in [-2^31, 2^31). -/
def i32Min : Int := -(2 ^ 31)

/-- Two's-complement wrap of an integer into the i32 range, the behaviour
of overflowing i32 arithmetic in Rust release builds. -/
def wrap32 (n : Int) : Int :=
  (n + 2 ^ 31) % 2 ^ 32 - 2 ^ 31

/-- BackendV2::seek_frames (backend_v2.rs lines 345-379).  Zero frames
panics; negative frames seek back by frames.abs() times frametime from the
current timecode clamped at zero (FLUSH) and queue a forced update;
positive frames send a native step event and queue a forced update.

The frames parameter is an i32 and line 355 computes frames.abs(), which
overflows at i32::MIN: under debug assertions (the dbg flag, cargo debug
profile) Rust panics with attempt-to-negate-with-overflow, and in release
it two's-complement wraps, so abs(i32::MIN) is i32::MIN itself and the
cast to f64 feeds a negative frame count into the target computation.
Both profiles are embedded; for every other i32 value they agree. -/
def seek_frames (dbg : Bool) (b : BackendV2) (frames : Int) : SeekResult :=
  if frames = 0 then
    SeekResult.panic "Attempted to seek 0 frames for some reason, check logic"
  else if frames < 0 then
    if frames = i32Min ∧ dbg = true then
      SeekResult.panic "attempt to negate with overflow"
    else
      let frames_abs := wrap32 (-frames)
      let start_time := b.latest_timecode
      let frametime := get_frametime b
      let back_sec := max (start_time - frametime * (frames_abs : ℚ)) 0
      let r := seek_time b SeekFlags.FLUSH back_sec
      SeekResult.ok (queue_frame_update r.1) r.2
  else
    SeekResult.ok (queue_frame_update b) [PipelineAction.stepEvent frames.toNat]

/-- Inclusive f64 range (std ops RangeInclusive), for get_volume_range. -/
structure RangeInclusive where
  lower : ℚ
  upper : ℚ
  deriving DecidableEq

/-- BackendV2::get_volume_range (backend_v2.rs lines 534-536): 0.0..=5.0. -/
def get_volume_range (_b : BackendV2) : RangeInclusive :=
  { lower := 0, upper := 5 }

/-- BackendV2::get_current_volume (backend_v2.rs lines 530-532). -/
def get_current_volume (b : BackendV2) : ℚ :=
  b.current_volume

/-- BackendV2::set_volume (backend_v2.rs lines 538-542): store the value and
set the volume element's volume property to it.  The Rust parameter is named
to, which is a reserved token here, hence vol. -/
def set_volume (b : BackendV2) (vol : ℚ) : BackendV2 × List PipelineAction :=
  ({ b with current_volume := vol }, [PipelineAction.setVolumeProperty vol])

/-- Message of the panic raised by update() when fut.join() returns the
task-panicked case and the code calls unwrap() on it
(backend_v2.rs line 216). -/
def probeJoinPanicMsg : String :=
  "called unwrap on the Err value returned by JoinHandle::join"

/-- Probe-future polling step of BackendV2::update (backend_v2.rs lines
209-219): when a probe task handle is present and is_finished(), take the
handle, join it, unwrap the join result (panicking if the task panicked) and
cache the task's Result in the probe field. -/
def pollProbe (b : BackendV2) : Except String BackendV2 :=
  match b.probe_future with
  | none => Except.ok b
  | some fut =>
    if fut.finished then
      match fut.outcome with
      | TaskOutcome.panicked => Except.error probeJoinPanicMsg
      | TaskOutcome.completed probe_res =>
        Except.ok { b with probe := probe_res, probe_future := none }
    else
      Except.ok b

/-- Shared tail of both forced-fetch success paths (backend_v2.rs lines
230-236 and 254-260): dispatch on the saved start_state, stopping for
Paused, starting for Playing, and only logging for the undefined states. -/
def restore_start_state (b : BackendV2) : BackendV2 × List PipelineAction :=
  match b.frame_queue_info.start_state with
  | Gst.State.VoidPending => (b, [])
  | Gst.State.Null => (b, [])
  | Gst.State.Ready => (b, [])
  | Gst.State.Paused => stop b
  | Gst.State.Playing => start b

/-- Frame-fetch part of BackendV2::update (backend_v2.rs lines 221-269): the
match on frame_queue_info.queued and in_progress. -/
def update_frames (b : BackendV2) (chan : Channel) : UpdateOutcome :=
  match b.frame_queue_info.queued with
  | true =>
    match b.frame_queue_info.in_progress with
    | true =>
      match try_recv chan with
      | Except.error e => UpdateOutcome.err b [] e
      | Except.ok upt =>
        let b1 := { b with frame_queue_info :=
          { b.frame_queue_info with in_progress := false, queued := false } }
        let r := restore_start_state b1
        let h := handle_update r.1 upt
        UpdateOutcome.ok h.1 r.2 h.2
    | false =>
      let b1 := { b with frame_queue_info :=
        { b.frame_queue_info with in_progress := true, start_state := get_predicted_state b } }
      let s := start b1
      match try_recv chan with
      | Except.error e => UpdateOutcome.err s.1 s.2 e
      | Except.ok upt =>
        let b2 := { s.1 with frame_queue_info :=
          { s.1.frame_queue_info with in_progress := false, queued := false } }
        let r := restore_start_state b2
        let h := handle_update r.1 upt
        UpdateOutcome.ok h.1 (s.2 ++ r.2) h.2
  | false =>
    match try_recv chan with
    | Except.error e => UpdateOutcome.err b [] e
    | Except.ok upt =>
      let h := handle_update b upt
      UpdateOutcome.ok h.1 [] h.2

/-- BackendV2::update (backend_v2.rs lines 208-270): poll the probe future,
then run the frame-fetch state machine against the channel content. -/
def update (b : BackendV2) (chan : Channel) : UpdateOutcome :=
  match pollProbe b with
  | Except.error msg => UpdateOutcome.panic msg
  | Except.ok b1 => update_frames b1 chan

/-- BackendV2::init (backend_v2.rs lines 100-206), restricted to the state
this repository owns: the probe starts as the Err("Not initialized yet")
placeholder with the freshly spawned probe task handle, the frame queue
starts queued (renders at least one frame at start) with start_state
VoidPending and no fetch in progress, speed 1.0, volume 2.5, timecode zero,
no cached info, target_state Null; then this.stop() puts the pipeline in
Paused.  The spawned task handle is a parameter, the probe thread itself
being outside the backend state. -/
def init (probe_task : JoinHandle) : BackendV2 × List PipelineAction :=
  let this : BackendV2 :=
    { probe := Except.error "Not initialized yet"
      probe_future := some probe_task
      latest_info := none
      latest_timecode := 0
      target_state := Gst.State.Null
      frame_queue_info :=
        { queued := true
          start_state := Gst.State.VoidPending
          in_progress := false }
      playback_speed := 1
      current_volume := 2.5
      current_audio_device := none }
  stop this

/-- Compilation status of a cfg-gated operation: either the branch compiles
and the operation runs returning a value of the given type, or the branch
contains a compile_error invocation and the crate fails to build for that
target. -/
inductive PlatformGated (α : Type)
  | runtime (result : α)
  | compileError (msg : String)
  deriving DecidableEq

/-- True when the gated branch compiles to a runtime operation. -/
def PlatformGated.isRuntime {α : Type} : PlatformGated α → Bool
  | .runtime _ => true
  | .compileError _ => false

/-- The cfg not-windows branch of BackendV2::set_audio_device
(backend_v2.rs lines 491-497): a compile_error invocation, so on non-Windows
targets the crate does not compile and no runtime behaviour exists. -/
def set_audio_device_nonwindows : PlatformGated (Except String Unit) :=
  PlatformGated.compileError "Set audio device only works on windows"

/-- The cfg not-windows branch of BackendV2::list_audio_devices
(backend_v2.rs lines 517-523): a compile_error invocation, so on non-Windows
targets the crate does not compile and no runtime behaviour exists. -/
def list_audio_devices_nonwindows : PlatformGated (Except String (List (String × String))) :=
  PlatformGated.compileError "List audio devices only works on windows"

/-! Concrete states used to instantiate the theorems below. -/

/-- A probe result as the background task would deliver it. -/
def sampleProbe : Probe :=
  { uri := "file:///sample.mkv", captions := [], audio_streams := [], video_streams := [] }

/-- A spawned probe task whose is_finished() still returns false. -/
def pendingTask : JoinHandle :=
  { finished := false, outcome := TaskOutcome.completed (Except.ok sampleProbe) }

/-- A finished probe task whose thread panicked. -/
def panickedTask : JoinHandle :=
  { finished := true, outcome := TaskOutcome.panicked }

/-- A decoded frame with presentation timecode 2 seconds. -/
def sampleFrame : FrameUpdate := { frame := 0, timecode := 2 }

/-- Video info for a 24 fps stream. -/
def sampleInfo : VideoInfo := { fps := { numer := 24, denom := 1 } }

/-- A settled backend: probe joined long ago, paused, nothing queued. -/
def bIdle : BackendV2 :=
  { probe := Except.error "Not initialized yet"
    probe_future := none
    latest_info := none
    latest_timecode := 0
    target_state := Gst.State.Paused
    frame_queue_info :=
      { queued := false, start_state := Gst.State.VoidPending, in_progress := false }
    playback_speed := 1
    current_volume := 2.5
    current_audio_device := none }

/-- The settled backend at timecode 1 second, still without cached info. -/
def bTc1 : BackendV2 := { bIdle with latest_timecode := 1 }

/-- The settled backend with the 24 fps video info cached. -/
def bInfo : BackendV2 := { bIdle with latest_info := some sampleInfo }

/-- The settled backend with a forced frame fetch requested but not begun. -/
def bQueued : BackendV2 :=
  { bIdle with frame_queue_info :=
      { queued := true, start_state := Gst.State.VoidPending, in_progress := false } }

/-- The backend mid forced fetch: started, saved state Paused, waiting. -/
def bFetching : BackendV2 :=
  { bIdle with
      frame_queue_info :=
        { queued := true, start_state := Gst.State.Paused, in_progress := true }
      target_state := Gst.State.Playing }

/-- The backend after the forced fetch completed with sampleFrame. -/
def bFetched : BackendV2 :=
  { bIdle with
      frame_queue_info :=
        { queued := false, start_state := Gst.State.Paused, in_progress := false }
      target_state := Gst.State.Paused
      latest_info := some sampleInfo
      latest_timecode := 2 }

/-- The settled backend once the probe result has been cached. -/
def bDone : BackendV2 := { bIdle with probe := Except.ok sampleProbe }

/-- A finished probe task that completed with a successful discovery. -/
def completedTask : JoinHandle :=
  { finished := true, outcome := TaskOutcome.completed (Except.ok sampleProbe) }

/-- The settled backend while its probe task has finished, not yet polled. -/
def bCompleted : BackendV2 := { bIdle with probe_future := some completedTask }

/-- The settled backend whose probe task has crashed, not yet polled. -/
def bPanicProbe : BackendV2 := { bIdle with probe_future := some panickedTask }

/-- A sequence of n update() ticks against an always-empty channel,
continuing only while each call returns the propagated channel-empty error
and threading the state the call left behind; none when some call returned
anything else. -/
def runEmptyTicks : Nat → BackendV2 → Option BackendV2
  | 0, b => some b
  | n + 1, b =>
    match update b none with
    | UpdateOutcome.err b2 _ TryRecvError.empty => runEmptyTicks n b2
    | _ => none

/-! Helper lemmas about the probe poll and the frame state machine. -/

/-- A successful probe poll never touches the frame machinery: only the probe
and probe_future fields can change. -/
lemma pollProbe_ok_fields (b b1 : BackendV2) (h : pollProbe b = Except.ok b1) :
    b1.latest_info = b.latest_info ∧ b1.latest_timecode = b.latest_timecode ∧
    b1.target_state = b.target_state ∧ b1.frame_queue_info = b.frame_queue_info ∧
    b1.playback_speed = b.playback_speed := by
  rcases b with ⟨probe, pf, li, lt, ts, fq, ps, cv, cad⟩
  rcases pf with _ | ⟨fin, outc⟩
  · simp only [pollProbe, Except.ok.injEq] at h
    subst h
    exact ⟨rfl, rfl, rfl, rfl, rfl⟩
  · cases fin
    · simp only [pollProbe, Bool.false_eq_true, if_false, Except.ok.injEq] at h
      subst h
      exact ⟨rfl, rfl, rfl, rfl, rfl⟩
    · cases outc
      · simp [pollProbe] at h
      · simp only [pollProbe, if_true, Except.ok.injEq] at h
        subst h
        exact ⟨rfl, rfl, rfl, rfl, rfl⟩

/-- Phase one of a forced fetch on an empty channel: flags flip to
in-progress, the pre-call target state is saved, the pipeline is started. -/
lemma update_frames_fresh_none (c : BackendV2) (h1 : c.frame_queue_info.queued = true)
    (h2 : c.frame_queue_info.in_progress = false) :
    update_frames c none =
      UpdateOutcome.err
        { c with
            frame_queue_info :=
              { queued := true, start_state := c.target_state, in_progress := true }
            target_state := Gst.State.Playing }
        [PipelineAction.setState Gst.State.Playing] TryRecvError.empty := by
  rcases c with ⟨probe, pf, li, lt, ts, ⟨q, ss, ip⟩, ps, cv, cad⟩
  replace h1 : q = true := h1
  replace h2 : ip = false := h2
  subst h1 h2
  rfl

/-- An in-progress forced fetch finding the channel empty changes nothing. -/
lemma update_frames_inprog_none (c : BackendV2) (h1 : c.frame_queue_info.queued = true)
    (h2 : c.frame_queue_info.in_progress = true) :
    update_frames c none = UpdateOutcome.err c [] TryRecvError.empty := by
  rcases c with ⟨probe, pf, li, lt, ts, ⟨q, ss, ip⟩, ps, cv, cad⟩
  replace h1 : q = true := h1
  replace h2 : ip = true := h2
  subst h1 h2
  rfl

/-- A plain tick (nothing queued) finding the channel empty changes nothing. -/
lemma update_frames_idle_none (c : BackendV2) (h : c.frame_queue_info.queued = false) :
    update_frames c none = UpdateOutcome.err c [] TryRecvError.empty := by
  rcases c with ⟨probe, pf, li, lt, ts, ⟨q, ss, ip⟩, ps, cv, cad⟩
  replace h : q = false := h
  subst h
  rfl

/-- Completing an in-progress forced fetch whose saved state was Paused:
flags clear, the pipeline is stopped again, the frame is cached. -/
lemma update_frames_inprog_some_paused (c : BackendV2) (upd : FrameUpdate × VideoInfo)
    (h1 : c.frame_queue_info.queued = true) (h2 : c.frame_queue_info.in_progress = true)
    (h3 : c.frame_queue_info.start_state = Gst.State.Paused) :
    update_frames c (some upd) =
      UpdateOutcome.ok
        { c with
            frame_queue_info :=
              { queued := false, start_state := Gst.State.Paused, in_progress := false }
            target_state := Gst.State.Paused
            latest_info := some upd.2
            latest_timecode := upd.1.timecode }
        [PipelineAction.setState Gst.State.Paused] upd.1 := by
  rcases c with ⟨probe, pf, li, lt, ts, ⟨q, ss, ip⟩, ps, cv, cad⟩
  replace h1 : q = true := h1
  replace h2 : ip = true := h2
  replace h3 : ss = Gst.State.Paused := h3
  subst h1 h2 h3
  rfl

/-- Completing an in-progress forced fetch whose saved state was Playing:
flags clear, the pipeline is started again, the frame is cached. -/
lemma update_frames_inprog_some_playing (c : BackendV2) (upd : FrameUpdate × VideoInfo)
    (h1 : c.frame_queue_info.queued = true) (h2 : c.frame_queue_info.in_progress = true)
    (h3 : c.frame_queue_info.start_state = Gst.State.Playing) :
    update_frames c (some upd) =
      UpdateOutcome.ok
        { c with
            frame_queue_info :=
              { queued := false, start_state := Gst.State.Playing, in_progress := false }
            target_state := Gst.State.Playing
            latest_info := some upd.2
            latest_timecode := upd.1.timecode }
        [PipelineAction.setState Gst.State.Playing] upd.1 := by
  rcases c with ⟨probe, pf, li, lt, ts, ⟨q, ss, ip⟩, ps, cv, cad⟩
  replace h1 : q = true := h1
  replace h2 : ip = true := h2
  replace h3 : ss = Gst.State.Playing := h3
  subst h1 h2 h3
  rfl

/-- The definitional unfolding of update into probe poll plus frame fetch. -/
lemma update_eq (b : BackendV2) (chan : Channel) :
    update b chan =
      match pollProbe b with
      | Except.error msg => UpdateOutcome.panic msg
      | Except.ok b1 => update_frames b1 chan := rfl

/-- With a frame in the channel, update_frames never returns the channel
error: every branch's try_recv succeeds. -/
lemma update_frames_some_not_err (c : BackendV2) (upd : FrameUpdate × VideoInfo)
    (b2 : BackendV2) (acts : List PipelineAction) (e : TryRecvError) :
    update_frames c (some upd) ≠ UpdateOutcome.err b2 acts e := by
  rcases c with ⟨probe, pf, li, lt, ts, ⟨q, ss, ip⟩, ps, cv, cad⟩
  cases q <;> cases ip <;> cases ss <;>
    simp [update_frames, try_recv, restore_start_state, start, stop, handle_update,
      get_predicted_state]

/-- With an empty channel, update_frames never returns a frame: every
branch's try_recv fails. -/
lemma update_frames_none_not_ok (c : BackendV2)
    (b2 : BackendV2) (acts : List PipelineAction) (fr : FrameUpdate) :
    update_frames c none ≠ UpdateOutcome.ok b2 acts fr := by
  rcases c with ⟨probe, pf, li, lt, ts, ⟨q, ss, ip⟩, ps, cv, cad⟩
  cases q <;> cases ip <;>
    simp [update_frames, try_recv, start, get_predicted_state]

/-- A tick against an empty channel either dies on the probe-task unwrap or
propagates the channel-empty error, leaving the cached frame data intact. -/
lemma update_none_cases (c : BackendV2) :
    (∃ m, update c none = UpdateOutcome.panic m) ∨
    (∃ c2 acts, update c none = UpdateOutcome.err c2 acts TryRecvError.empty ∧
      c2.latest_info = c.latest_info ∧ c2.latest_timecode = c.latest_timecode) := by
  rw [update_eq]
  cases hp : pollProbe c with
  | error msg => exact Or.inl ⟨msg, rfl⟩
  | ok b1 =>
    obtain ⟨hli, hlt, hts, hfq, hps⟩ := pollProbe_ok_fields c b1 hp
    by_cases hq : b1.frame_queue_info.queued = true
    · by_cases hip : b1.frame_queue_info.in_progress = true
      · exact Or.inr ⟨b1, [], update_frames_inprog_none b1 hq hip, hli, hlt⟩
      · replace hip : b1.frame_queue_info.in_progress = false := by
          simpa using hip
        exact Or.inr ⟨_, _, update_frames_fresh_none b1 hq hip, hli, hlt⟩
    · replace hq : b1.frame_queue_info.queued = false := by simpa using hq
      exact Or.inr ⟨b1, [], update_frames_idle_none b1 hq, hli, hlt⟩

/-- Any number of empty-channel ticks that all propagate the channel-empty
error leaves latest_info and latest_timecode untouched. -/
lemma runEmptyTicks_preserves (n : Nat) : ∀ b bN : BackendV2,
    runEmptyTicks n b = some bN →
    bN.latest_info = b.latest_info ∧ bN.latest_timecode = b.latest_timecode := by
  induction n with
  | zero =>
    intro b bN h
    simp only [runEmptyTicks, Option.some.injEq] at h
    subst h
    exact ⟨rfl, rfl⟩
  | succ n ih =>
    intro b bN h
    rw [runEmptyTicks] at h
    rcases update_none_cases b with ⟨m, hm⟩ | ⟨c2, acts2, hc, hli, hlt⟩
    · rw [hm] at h
      exact Option.noConfusion h
    · rw [hc] at h
      obtain ⟨ih1, ih2⟩ := ih c2 bN h
      exact ⟨ih1.trans hli, ih2.trans hlt⟩

/-- Rewriting form of update when the probe poll succeeds. -/
lemma update_ok_poll (b b1 : BackendV2) (chan : Channel)
    (hp : pollProbe b = Except.ok b1) :
    update b chan = update_frames b1 chan := by
  rw [update_eq, hp]

/-! Claim theorems. -/

/-- C1: Forced-fetch two-phase protocol of update().  Phase one: from
queued and not in progress, a call that finds the channel empty leaves
queued and in progress set, saves the pre-call target state in start_state
and starts the pipeline (target state Playing).  Phase two: a later call
that receives a frame restores target_state to the saved start_state
(stopping for Paused, starting for Playing) and clears both flags.  And on
any call that returns the channel error, neither flag is cleared. -/
theorem update_forced_fetch_two_phase :
    (∀ (b b2 : BackendV2) (acts : List PipelineAction) (e : TryRecvError),
      b.frame_queue_info.queued = true →
      b.frame_queue_info.in_progress = false →
      update b none = UpdateOutcome.err b2 acts e →
      b2.frame_queue_info.queued = true ∧ b2.frame_queue_info.in_progress = true ∧
      b2.frame_queue_info.start_state = b.target_state ∧
      b2.target_state = Gst.State.Playing ∧
      acts = [PipelineAction.setState Gst.State.Playing]) ∧
    (∀ (b b2 : BackendV2) (acts : List PipelineAction) (fr : FrameUpdate) (chan : Channel),
      b.frame_queue_info.queued = true →
      b.frame_queue_info.in_progress = true →
      (b.frame_queue_info.start_state = Gst.State.Paused ∨
        b.frame_queue_info.start_state = Gst.State.Playing) →
      update b chan = UpdateOutcome.ok b2 acts fr →
      b2.target_state = b.frame_queue_info.start_state ∧
      b2.frame_queue_info.queued = false ∧ b2.frame_queue_info.in_progress = false ∧
      acts = [PipelineAction.setState b.frame_queue_info.start_state]) ∧
    (∀ (b : BackendV2) (chan : Channel) (b2 : BackendV2) (acts : List PipelineAction)
        (e : TryRecvError),
      update b chan = UpdateOutcome.err b2 acts e →
      (b.frame_queue_info.queued = true → b2.frame_queue_info.queued = true) ∧
      (b.frame_queue_info.in_progress = true → b2.frame_queue_info.in_progress = true)) := by
  refine ⟨?_, ?_, ?_⟩
  · intro b b2 acts e hq hip hupd
    cases hp : pollProbe b with
    | error msg =>
      rw [update_eq, hp] at hupd
      exact absurd hupd (by simp)
    | ok b1 =>
      rw [update_ok_poll b b1 none hp] at hupd
      obtain ⟨hli, hlt, hts, hfq, hps⟩ := pollProbe_ok_fields b b1 hp
      have hq1 : b1.frame_queue_info.queued = true := by rw [hfq, hq]
      have hip1 : b1.frame_queue_info.in_progress = false := by rw [hfq, hip]
      rw [update_frames_fresh_none b1 hq1 hip1] at hupd
      injection hupd with hb ha he
      subst hb
      exact ⟨rfl, rfl, hts, rfl, ha.symm⟩
  · intro b b2 acts fr chan hq hip hss hupd
    cases hp : pollProbe b with
    | error msg =>
      rw [update_eq, hp] at hupd
      exact absurd hupd (by simp)
    | ok b1 =>
      rw [update_ok_poll b b1 chan hp] at hupd
      obtain ⟨hli, hlt, hts, hfq, hps⟩ := pollProbe_ok_fields b b1 hp
      have hq1 : b1.frame_queue_info.queued = true := by rw [hfq, hq]
      have hip1 : b1.frame_queue_info.in_progress = true := by rw [hfq, hip]
      cases chan with
      | none =>
        exact absurd hupd (update_frames_none_not_ok b1 b2 acts fr)
      | some upd =>
        rcases hss with hP | hP
        · have hss1 : b1.frame_queue_info.start_state = Gst.State.Paused := by rw [hfq, hP]
          rw [update_frames_inprog_some_paused b1 upd hq1 hip1 hss1] at hupd
          injection hupd with hb ha hf
          subst hb
          refine ⟨?_, rfl, rfl, ?_⟩
          · rw [hP]
          · rw [hP]
            exact ha.symm
        · have hss1 : b1.frame_queue_info.start_state = Gst.State.Playing := by rw [hfq, hP]
          rw [update_frames_inprog_some_playing b1 upd hq1 hip1 hss1] at hupd
          injection hupd with hb ha hf
          subst hb
          refine ⟨?_, rfl, rfl, ?_⟩
          · rw [hP]
          · rw [hP]
            exact ha.symm
  · intro b chan b2 acts e hupd
    cases hp : pollProbe b with
    | error msg =>
      rw [update_eq, hp] at hupd
      exact absurd hupd (by simp)
    | ok b1 =>
      rw [update_ok_poll b b1 chan hp] at hupd
      obtain ⟨hli, hlt, hts, hfq, hps⟩ := pollProbe_ok_fields b b1 hp
      cases chan with
      | some upd =>
        exact absurd hupd (update_frames_some_not_err b1 upd b2 acts e)
      | none =>
        by_cases hq1 : b1.frame_queue_info.queued = true
        · by_cases hip1 : b1.frame_queue_info.in_progress = true
          · rw [update_frames_inprog_none b1 hq1 hip1] at hupd
            injection hupd with hb ha he
            subst hb
            constructor
            · intro hx
              rw [hfq, hx]
            · intro hx
              rw [hfq, hx]
          · replace hip1 : b1.frame_queue_info.in_progress = false := by simpa using hip1
            rw [update_frames_fresh_none b1 hq1 hip1] at hupd
            injection hupd with hb ha he
            subst hb
            exact ⟨fun _ => rfl, fun _ => rfl⟩
        · replace hq1 : b1.frame_queue_info.queued = false := by simpa using hq1
          rw [update_frames_idle_none b1 hq1] at hupd
          injection hupd with hb ha he
          subst hb
          constructor
          · intro hx
            rw [hfq, hx]
          · intro hx
            rw [hfq, hx]

/-- Witness for C1: phase one runs on the freshly queued paused backend,
phase two completes on the mid-fetch backend with a frame in the channel,
and the flag-preservation part is applied to a plain idle empty tick. -/
theorem update_forced_fetch_two_phase_witness :
    (bFetching.frame_queue_info.queued = true ∧
     bFetching.frame_queue_info.in_progress = true ∧
     bFetching.frame_queue_info.start_state = bQueued.target_state ∧
     bFetching.target_state = Gst.State.Playing ∧
     [PipelineAction.setState Gst.State.Playing] =
       [PipelineAction.setState Gst.State.Playing]) ∧
    (bFetched.target_state = bFetching.frame_queue_info.start_state ∧
     bFetched.frame_queue_info.queued = false ∧
     bFetched.frame_queue_info.in_progress = false ∧
     [PipelineAction.setState Gst.State.Paused] =
       [PipelineAction.setState bFetching.frame_queue_info.start_state]) ∧
    ((bIdle.frame_queue_info.queued = true → bIdle.frame_queue_info.queued = true) ∧
     (bIdle.frame_queue_info.in_progress = true →
       bIdle.frame_queue_info.in_progress = true)) := by
  refine ⟨?_, ?_, ?_⟩
  · exact update_forced_fetch_two_phase.1 bQueued bFetching
      [PipelineAction.setState Gst.State.Playing] TryRecvError.empty rfl rfl (by rfl)
  · exact update_forced_fetch_two_phase.2.1 bFetching bFetched
      [PipelineAction.setState Gst.State.Paused] sampleFrame
      (some (sampleFrame, sampleInfo)) rfl rfl (Or.inl rfl) (by rfl)
  · exact update_forced_fetch_two_phase.2.2 bIdle none bIdle [] TryRecvError.empty
      (by rfl)

/-- Counterexample for C2: an update() tick on the empty channel does not
return a frame-free success, it returns the propagated channel error (the
Rust Err from try_recv's question-mark), here on the settled idle backend. -/
theorem update_empty_channel_errors_cex :
    (update bIdle none).isErr = true ∧
    update bIdle none = UpdateOutcome.err bIdle [] TryRecvError.empty := by
  exact ⟨rfl, rfl⟩

/-- C2 (amended): every empty-channel update() call that completes (does not
die on the probe-task unwrap) returns the propagated channel-empty error,
which callers treat as no-frame-this-tick, never a frame; across any
sequence of such calls the cached latest_info and latest_timecode are left
unchanged. -/
theorem update_empty_channel_keeps_caches (n : Nat) (b bN : BackendV2)
    (h : runEmptyTicks n b = some bN) :
    bN.latest_info = b.latest_info ∧ bN.latest_timecode = b.latest_timecode ∧
    (∀ c : BackendV2,
      (∃ m, update c none = UpdateOutcome.panic m) ∨
      (∃ c2 acts, update c none = UpdateOutcome.err c2 acts TryRecvError.empty ∧
        c2.latest_info = c.latest_info ∧ c2.latest_timecode = c.latest_timecode)) := by
  obtain ⟨h1, h2⟩ := runEmptyTicks_preserves n b bN h
  exact ⟨h1, h2, fun c => update_none_cases c⟩

/-- Witness for C2's amended theorem: three empty ticks on the backend at
timecode one second cycle back to the same state, caches untouched. -/
theorem update_empty_channel_keeps_caches_witness :
    bTc1.latest_info = bTc1.latest_info ∧ bTc1.latest_timecode = bTc1.latest_timecode := by
  obtain ⟨h1, h2, _⟩ := update_empty_channel_keeps_caches 3 bTc1 bTc1 (by rfl)
  exact ⟨h1, h2⟩

/-- C3: the trait defaults is_playing and is_paused are constant true: the
matches invocation puts State::Playing (resp. State::Paused) in value
position and the binder _st in pattern position, so the match always
succeeds; in particular on a backend whose tracked target state is Paused,
is_playing still reports true, contradicting the specified equivalence with
get_predicted_state. -/
theorem is_playing_is_paused_always_true :
    (∀ b : BackendV2, is_playing b = true ∧ is_paused b = true) ∧
    get_predicted_state bIdle = Gst.State.Paused ∧
    is_playing bIdle = true ∧ is_paused bIdle = true := by
  exact ⟨fun b => ⟨rfl, rfl⟩, rfl, rfl, rfl⟩

/-- Counterexample for C4: at N = i32::MIN, in the claim's "for every N",
the program does not issue the claimed flush seek to
max(0, timecode - abs(N) frametimes): frames.abs() overflows, so under
debug assertions seek_frames panics with the negate-overflow message, and
in release the wrapped absolute value is i32::MIN itself and the seek goes
2^31 frametimes forward (here, from timecode 1s with the default 1/30
frametime, to 1 + 2^31/30 seconds instead of the claimed
max(0, 1 - 2^31/30) = 0). -/
theorem seek_frames_i32min_cex :
    seek_frames true bTc1 i32Min = SeekResult.panic "attempt to negate with overflow" ∧
    seek_frames false bTc1 i32Min =
      SeekResult.ok (queue_frame_update bTc1)
        [PipelineAction.seek 1 SeekFlags.FLUSH (1 + 2 ^ 31 * (1 / 30 : ℚ))] ∧
    ¬ seek_frames true bTc1 i32Min =
      SeekResult.ok (queue_frame_update bTc1)
        [PipelineAction.seek 1 SeekFlags.FLUSH (max 0 (1 - 2 ^ 31 * (1 / 30 : ℚ)))] ∧
    ¬ seek_frames false bTc1 i32Min =
      SeekResult.ok (queue_frame_update bTc1)
        [PipelineAction.seek 1 SeekFlags.FLUSH (max 0 (1 - 2 ^ 31 * (1 / 30 : ℚ)))] := by
  have h0 : ¬ ((i32Min : Int) = 0) := by decide
  have hneg : i32Min < 0 := by decide
  have hnoF : ¬ (i32Min = i32Min ∧ (false : Bool) = true) := by simp
  have hw : wrap32 (-i32Min) = i32Min := by decide
  have hdbg : seek_frames true bTc1 i32Min =
      SeekResult.panic "attempt to negate with overflow" := rfl
  have htarget : max (bTc1.latest_timecode - get_frametime bTc1 * (i32Min : ℚ)) 0 =
      1 + 2 ^ 31 * (1 / 30 : ℚ) := by
    have hft : get_frametime bTc1 = 1 / 30 := rfl
    have htc : bTc1.latest_timecode = 1 := rfl
    rw [hft, htc, max_eq_left (by norm_num [i32Min])]
    norm_num [i32Min]
  have hrel : seek_frames false bTc1 i32Min =
      SeekResult.ok (queue_frame_update bTc1)
        [PipelineAction.seek 1 SeekFlags.FLUSH (1 + 2 ^ 31 * (1 / 30 : ℚ))] := by
    simp only [seek_frames, if_neg h0, if_pos hneg, hw, seek_time]
    rw [htarget]
    have hps : bTc1.playback_speed = 1 := rfl
    simp [hps]
  have hclaimed : max (0 : ℚ) (1 - 2 ^ 31 * (1 / 30 : ℚ)) = 0 :=
    max_eq_left (by norm_num)
  refine ⟨hdbg, hrel, ?_, ?_⟩
  · intro h
    rw [hdbg] at h
    exact SeekResult.noConfusion h
  · intro h
    rw [hrel] at h
    injection h with hb ha
    simp only [List.cons.injEq, PipelineAction.seek.injEq, and_true] at ha
    obtain ⟨-, -, hteq⟩ := ha
    rw [hclaimed] at hteq
    norm_num at hteq

/-- C4 (amended): seek_frames(0) fails fast with a panic; for every i32
value N with i32::MIN < N < 0 it issues exactly one FLUSH seek to
max(0, current timecode minus abs(N) times frametime) and queues a forced
update, in both build profiles, with frametime 1/fps from the cached video
info or 1/30 when none is cached; for every positive i32 value N it sends
one native step event for N frames and queues a forced update; and at
N = i32::MIN frames.abs() overflows, so the call panics under debug
assertions and in release seeks forward by 2^31 frametimes instead. -/
theorem seek_frames_spec :
    (∀ (dbg : Bool) (b : BackendV2), ∃ m, seek_frames dbg b 0 = SeekResult.panic m) ∧
    (∀ (dbg : Bool) (b : BackendV2) (n : Int), n < 0 → i32Min < n →
      seek_frames dbg b n =
        SeekResult.ok (queue_frame_update b)
          [PipelineAction.seek b.playback_speed SeekFlags.FLUSH
            (max 0 (b.latest_timecode - (n.natAbs : ℚ) * get_frametime b))]) ∧
    (∀ b : BackendV2, b.latest_info = none → get_frametime b = 1 / 30) ∧
    (∀ (b : BackendV2) (info : VideoInfo), b.latest_info = some info →
      get_frametime b = 1 / fraction_to_f64 info.fps) ∧
    (∀ (dbg : Bool) (b : BackendV2) (n : Int), 0 < n → n < 2 ^ 31 →
      seek_frames dbg b n =
        SeekResult.ok (queue_frame_update b) [PipelineAction.stepEvent n.toNat]) ∧
    (∀ b : BackendV2,
      seek_frames true b i32Min = SeekResult.panic "attempt to negate with overflow" ∧
      seek_frames false b i32Min =
        SeekResult.ok (queue_frame_update b)
          [PipelineAction.seek b.playback_speed SeekFlags.FLUSH
            (max 0 (b.latest_timecode + 2 ^ 31 * get_frametime b))]) := by
  refine ⟨?_, ?_, ?_, ?_, ?_, ?_⟩
  · intro dbg b
    exact ⟨"Attempted to seek 0 frames for some reason, check logic", rfl⟩
  · intro dbg b n hn hmin
    have h0 : ¬ (n = 0) := by omega
    have hno : ¬ (n = i32Min ∧ dbg = true) := by
      rintro ⟨h, -⟩
      rw [h] at hmin
      exact absurd hmin (lt_irrefl _)
    have hw : wrap32 (-n) = -n := by
      have hlo : (0 : Int) ≤ -n + 2 ^ 31 := by
        simp only [i32Min] at hmin
        omega
      have hhi : -n + 2 ^ 31 < 2 ^ 32 := by
        simp only [i32Min] at hmin
        omega
      simp only [wrap32]
      rw [Int.emod_eq_of_lt hlo hhi]
      ring
    have hcast : ((-n : Int) : ℚ) = (n.natAbs : ℚ) := by
      have h1 : (n.natAbs : Int) = -n := by omega
      rw [← h1, Int.cast_natCast]
    have hmul : b.latest_timecode - get_frametime b * ((-n : Int) : ℚ) =
        b.latest_timecode - (n.natAbs : ℚ) * get_frametime b := by
      rw [hcast]
      ring
    simp only [seek_frames, if_neg h0, if_pos hn, if_neg hno, hw, seek_time, hmul,
      max_comm]
  · intro b h
    simp [get_frametime, get_latest_vidio_info, h]
  · intro b info h
    simp [get_frametime, get_latest_vidio_info, h]
  · intro dbg b n hn hmax
    have h0 : ¬ (n = 0) := by omega
    have h1 : ¬ (n < 0) := by omega
    simp only [seek_frames, if_neg h0, if_neg h1]
  · intro b
    have h0 : ¬ ((i32Min : Int) = 0) := by decide
    have hneg : i32Min < 0 := by decide
    constructor
    · rfl
    · have hno : ¬ (i32Min = i32Min ∧ (false : Bool) = true) := by simp
      have hw : wrap32 (-i32Min) = i32Min := by decide
      have hmul : b.latest_timecode - get_frametime b * (i32Min : ℚ) =
          b.latest_timecode + 2 ^ 31 * get_frametime b := by
        simp only [i32Min]
        push_cast
        ring
      simp only [seek_frames, if_neg h0, if_pos hneg, hw, seek_time, hmul, max_comm]
      simp

/-- Witness for C4's amended theorem: on the settled backend at timecode
one second with no cached info, a zero step panics, stepping back five
frames seeks to 1 - 5/30 = 5/6 of a second at rate 1 with FLUSH, the
default frametime is 1/30 (and 1/24 once the 24 fps info is cached),
stepping forward three frames emits a step event for three frames, and the
debug-profile call at i32::MIN panics with the overflow message. -/
theorem seek_frames_spec_witness :
    (∃ m, seek_frames true bTc1 0 = SeekResult.panic m) ∧
    seek_frames true bTc1 (-5) =
      SeekResult.ok (queue_frame_update bTc1)
        [PipelineAction.seek 1 SeekFlags.FLUSH (5 / 6)] ∧
    get_frametime bTc1 = 1 / 30 ∧
    get_frametime bInfo = 1 / 24 ∧
    seek_frames false bTc1 3 =
      SeekResult.ok (queue_frame_update bTc1) [PipelineAction.stepEvent 3] ∧
    seek_frames true bTc1 i32Min = SeekResult.panic "attempt to negate with overflow" := by
  obtain ⟨p1, p2, p3, p4, p5, p6⟩ := seek_frames_spec
  refine ⟨p1 true bTc1, ?_, p3 bTc1 rfl, ?_, ?_, (p6 bTc1).1⟩
  · rw [p2 true bTc1 (-5) (by decide) (by decide)]
    norm_num [bTc1, bIdle, get_frametime, get_latest_vidio_info]
  · rw [p4 bInfo sampleInfo rfl]
    norm_num [sampleInfo, fraction_to_f64]
  · rw [p5 false bTc1 3 (by decide) (by decide)]
    rfl

/-- C5: change_playback_speed(s) persists s (current_playback_speed returns
it), issues one FLUSH seek at rate s anchored at the backend timecode read
at the moment of the call, and every subsequent seek_time / seek_timeline
on the resulting state seeks at rate s. -/
theorem change_playback_speed_spec (b : BackendV2) (s : ℚ) :
    (change_playback_speed b s).1.playback_speed = s ∧
    current_playback_speed (change_playback_speed b s).1 = s ∧
    (change_playback_speed b s).2 =
      [PipelineAction.seek s SeekFlags.FLUSH (timecode b)] ∧
    (∀ (flags : SeekFlags) (t : ClockTime),
      seek_time (change_playback_speed b s).1 flags t =
        ((change_playback_speed b s).1, [PipelineAction.seek s flags t])) ∧
    (∀ (t : ClockTime) (acc : Bool),
      seek_timeline (change_playback_speed b s).1 t acc =
        ((change_playback_speed b s).1,
          if (change_playback_speed b s).1.frame_queue_info.in_progress then []
          else [PipelineAction.seek s
            (if acc then SeekFlags.FLUSH
              else SeekFlags.or SeekFlags.FLUSH SeekFlags.KEY_UNIT) t])) := by
  refine ⟨rfl, rfl, rfl, fun flags t => rfl, fun t acc => ?_⟩
  cases hb : b.frame_queue_info.in_progress <;>
    simp [seek_timeline, change_playback_speed, hb]

/-- C6: while a forced fetch is in progress, seek_timeline is a successful
no-op touching nothing; otherwise it issues exactly one seek whose flags
are FLUSH alone when accurate and FLUSH plus KEY_UNIT (keyframe snap) when
not. -/
theorem seek_timeline_spec (b : BackendV2) (t : ClockTime) (acc : Bool) :
    (b.frame_queue_info.in_progress = true → seek_timeline b t acc = (b, [])) ∧
    (b.frame_queue_info.in_progress = false →
      seek_timeline b t acc =
        (b, [PipelineAction.seek b.playback_speed
          (if acc then SeekFlags.FLUSH
            else SeekFlags.or SeekFlags.FLUSH SeekFlags.KEY_UNIT) t])) ∧
    SeekFlags.FLUSH = { flush := true, key_unit := false, accurate := false } ∧
    SeekFlags.or SeekFlags.FLUSH SeekFlags.KEY_UNIT =
      { flush := true, key_unit := true, accurate := false } := by
  refine ⟨fun h => ?_, fun h => ?_, rfl, rfl⟩
  · simp [seek_timeline, h]
  · simp [seek_timeline, h]

/-- Witness for C6: suppressed on the mid-fetch backend, and one keyframe
snapped seek on the idle backend when accurate is false. -/
theorem seek_timeline_spec_witness :
    seek_timeline bFetching 4 true = (bFetching, []) ∧
    seek_timeline bIdle 4 false =
      (bIdle, [PipelineAction.seek 1
        (SeekFlags.or SeekFlags.FLUSH SeekFlags.KEY_UNIT) 4]) := by
  refine ⟨(seek_timeline_spec bFetching 4 true).1 rfl, ?_⟩
  rw [(seek_timeline_spec bIdle 4 false).2.1 rfl]
  rfl

/-- Counterexample for C7: on a backend whose probe task crashed, the next
update() call does not surface a distinct probe-task-failed condition — the
unwrap on the join result panics, killing the whole update() call (and with
it the backend's tick thread), so the failure is not confined to the probe
attempt. -/
theorem probe_task_panic_crashes_update_cex :
    (update bPanicProbe none).isPanic = true ∧
    update bPanicProbe none = UpdateOutcome.panic probeJoinPanicMsg := by
  exact ⟨rfl, rfl⟩

/-- C7 (amended): get_probe never blocks nor panics — before completion it
returns the cached not-ready error, and once update() has joined the
finished task and cached its Result, every get_probe call returns that
cached Result without re-running discovery; but a probe-task panic is not
surfaced as a distinct condition: the join-unwrap makes update() itself
panic. -/
theorem probe_poll_and_get_probe_spec :
    (∀ (b : BackendV2) (e : String), b.probe = Except.error e →
      get_probe b = Except.error e) ∧
    (∀ (b : BackendV2) (p : Probe), b.probe = Except.ok p →
      get_probe b = Except.ok p) ∧
    (∀ (b : BackendV2) (fut : JoinHandle) (r : Except String Probe),
      b.probe_future = some fut → fut.finished = true →
      fut.outcome = TaskOutcome.completed r →
      pollProbe b = Except.ok { b with probe := r, probe_future := none }) ∧
    (∀ (b : BackendV2) (fut : JoinHandle) (chan : Channel),
      b.probe_future = some fut → fut.finished = true →
      fut.outcome = TaskOutcome.panicked →
      update b chan = UpdateOutcome.panic probeJoinPanicMsg) := by
  refine ⟨?_, ?_, ?_, ?_⟩
  · intro b e h
    simp [get_probe, h]
  · intro b p h
    simp [get_probe, h]
  · intro b fut r h hf ho
    simp [pollProbe, h, hf, ho]
  · intro b fut chan h hf ho
    rw [update_eq]
    simp [pollProbe, h, hf, ho]

/-- Witness for C7's amended theorem: the not-ready error on the settled
backend, the cached Ok on the completed backend, the poll caching the
finished task's result, and the panic on the crashed task. -/
theorem probe_poll_and_get_probe_spec_witness :
    get_probe bIdle = Except.error "Not initialized yet" ∧
    get_probe bDone = Except.ok sampleProbe ∧
    pollProbe bCompleted =
      Except.ok { bCompleted with probe := Except.ok sampleProbe, probe_future := none } ∧
    update bPanicProbe none = UpdateOutcome.panic probeJoinPanicMsg := by
  obtain ⟨p1, p2, p3, p4⟩ := probe_poll_and_get_probe_spec
  exact ⟨p1 bIdle "Not initialized yet" rfl, p2 bDone sampleProbe rfl,
    p3 bCompleted completedTask (Except.ok sampleProbe) rfl rfl rfl,
    p4 bPanicProbe panickedTask none rfl rfl rfl⟩

/-- Counterexample for C8: set_volume(6.0) on the idle backend stores and
applies 6.0 unchanged even though the advertised range tops out at 5.0 —
no clamping happens. -/
theorem set_volume_above_range_cex :
    (set_volume bIdle 6).1.current_volume = 6 ∧
    ¬ (set_volume bIdle 6).1.current_volume = 5 ∧
    (set_volume bIdle 6).2 = [PipelineAction.setVolumeProperty 6] ∧
    (get_volume_range bIdle).upper = 5 := by
  refine ⟨rfl, ?_, rfl, rfl⟩
  intro h
  exact absurd h (by norm_num [set_volume, bIdle])

/-- C8 (amended): set_volume stores the given value unchanged and forwards
it unchanged to the volume element, never returning an error and never
clamping against the 0.0..=5.0 range advertised by get_volume_range. -/
theorem set_volume_spec (b : BackendV2) (v : ℚ) :
    set_volume b v =
      ({ b with current_volume := v }, [PipelineAction.setVolumeProperty v]) ∧
    get_current_volume (set_volume b v).1 = v ∧
    get_volume_range b = { lower := 0, upper := 5 } := by
  exact ⟨rfl, rfl, rfl⟩

/-- Counterexample for C9: on non-Windows targets the audio device
operations are not runtime operations at all — both cfg branches reduce to
a compile_error invocation, so no typed runtime failure can be returned. -/
theorem audio_device_ops_compile_error_cex :
    set_audio_device_nonwindows.isRuntime = false ∧
    list_audio_devices_nonwindows.isRuntime = false := by
  exact ⟨rfl, rfl⟩

/-- C9 (amended): on platforms without the host device-enumeration API the
audio device operations are rejected at compile time via compile_error!
(the crate does not build there), rather than returning a typed
unsupported-on-this-platform runtime failure. -/
theorem audio_device_ops_nonwindows_spec :
    set_audio_device_nonwindows =
      PlatformGated.compileError "Set audio device only works on windows" ∧
    list_audio_devices_nonwindows =
      PlatformGated.compileError "List audio devices only works on windows" := by
  exact ⟨rfl, rfl⟩

/-- C10: a successful init leaves the backend with a frame fetch already
queued and not in progress, predicted state Paused (init ends with stop()),
playback speed 1, timecode zero, no cached video info and the
not-initialized probe error; and, while the probe task is still running,
the very first update() call takes the forced-fetch path: it marks the
fetch in progress, saves Paused, and starts the pipeline even though the
caller never invoked start(). -/
theorem init_spec (task : JoinHandle) :
    (init task).1.frame_queue_info.queued = true ∧
    (init task).1.frame_queue_info.in_progress = false ∧
    get_predicted_state (init task).1 = Gst.State.Paused ∧
    (init task).1.playback_speed = 1 ∧
    (init task).1.latest_timecode = 0 ∧
    (init task).1.latest_info = none ∧
    get_probe (init task).1 = Except.error "Not initialized yet" ∧
    (init task).2 = [PipelineAction.setState Gst.State.Paused] ∧
    (task.finished = false →
      update (init task).1 none =
        UpdateOutcome.err
          { (init task).1 with
              frame_queue_info :=
                { queued := true, start_state := Gst.State.Paused, in_progress := true }
              target_state := Gst.State.Playing }
          [PipelineAction.setState Gst.State.Playing] TryRecvError.empty) := by
  refine ⟨rfl, rfl, rfl, rfl, rfl, rfl, rfl, rfl, ?_⟩
  intro hf
  rcases task with ⟨fin, outc⟩
  replace hf : fin = false := hf
  subst hf
  rfl

/-- Witness for C10: the initial state built over the still-running probe
task, with the first-tick hypothesis discharged on that task. -/
theorem init_spec_witness :
    (init pendingTask).1.frame_queue_info.queued = true ∧
    get_predicted_state (init pendingTask).1 = Gst.State.Paused ∧
    update (init pendingTask).1 none =
      UpdateOutcome.err
        { (init pendingTask).1 with
            frame_queue_info :=
              { queued := true, start_state := Gst.State.Paused, in_progress := true }
            target_state := Gst.State.Playing }
        [PipelineAction.setState Gst.State.Playing] TryRecvError.empty := by
  obtain ⟨h1, h2, h3, h4, h5, h6, h7, h8, h9⟩ := init_spec pendingTask
  exact ⟨h1, h3, h9 rfl⟩
